import Mathlib

/-!
Verification of the turn-orchestration core of the Historias-Infinitas
interactive narrative client.

The embedding below translates the relevant source code:
- src/unnamed/part_001 : the shared type declarations (Choice, GameTurn,
  StoryEngineResponse).
- src/unnamed/part_000 : the session controller (the App component).
  Its pure computations (health clamping, inventory merge, the
  areChoicesVisible predicate) become Lean functions; its stateful
  orchestration (processTurn, resetGame, handleStartGame, the background
  image continuation) becomes an explicit step function on an AppState
  record, driven by events.  Because the JavaScript turn objects are
  compared by object identity, each turn created by the model carries an
  allocation tag tid mirroring that identity.
- src/services/geminiService.ts : the story adapter generateStorySegment
  with its declared response schema and its literal fallback response,
  and the image adapter generateSceneImage.
-/

/-- From src/unnamed/part_001: Choice is an id plus a display text. -/
structure Choice where
  id : String
  text : String
deriving DecidableEq

/-- From src/unnamed/part_001: GameTurn has text, an optional imageUrl and
a list of choices.  The extra field tid models JavaScript object identity
of the turn object allocated by processTurn (a fresh object is created per
setCurrentTurn with a turn literal); it has no counterpart field in the
source but stands for the reference identity of that allocation. -/
structure GameTurn where
  tid : Nat
  text : String
  imageUrl : Option String
  choices : List Choice
deriving DecidableEq

/-- From src/unnamed/part_001: the structured response expected from the
text model.  JavaScript numbers are modelled as Int; the schema declares
hpChange as an integer. -/
structure StoryEngineResponse where
  narrative : String
  hpChange : Int
  inventoryAdd : List String
  inventoryRemove : List String
  visualDescription : String
  isGameOver : Bool
  choices : List Choice
deriving DecidableEq

/-- From src/unnamed/part_000 line 30: the three application modes. -/
inductive Mode where
  | START
  | PLAYING
  | GAMEOVER
deriving DecidableEq

/-- The mutable session state owned by the App component
(src/unnamed/part_000 lines 30-45).  pendingImages records the in-flight
background image promises: each entry is the tid of the turn the request
was issued for together with the visualDescription sent; the source keeps
no such record (promises are unnamed), the list only tracks which
continuations are still outstanding.  nextId is the allocation counter
backing the tid tags.  Presentation-only state (theme strings, the
inventory modal flag, suggested themes) is omitted: no claim touches it. -/
structure AppState where
  mode : Mode
  hp : Int
  inventory : List String
  currentTurn : Option GameTurn
  isStoryLoading : Bool
  isImageLoading : Bool
  isTypingComplete : Bool
  pendingImages : List (Nat × String)
  nextId : Nat
deriving DecidableEq

/-- From src/unnamed/part_000 line 112:
newHp equals Math.min of 100 and Math.max of 0 and currentHp + hpChange. -/
def clampHp (x : Int) : Int := min 100 (max 0 x)

/-- From src/unnamed/part_000 lines 115-118: the forEach loop that pushes
each inventoryAdd item onto the inventory unless already included. -/
def addNew (acc : List String) : List String → List String
  | [] => acc
  | g :: gs => addNew (if acc.contains g then acc else acc ++ [g]) gs

/-- From src/unnamed/part_000 lines 114-118: newInv filters out the
removed items, then appends each added item not already present
(Array.includes is String equality). -/
def updateInventory (inv rem add : List String) : List String :=
  addNew (inv.filter (fun i => !(rem.contains i))) add

/-- From src/unnamed/part_000 line 70: choices are shown exactly when the
story is not loading, the typewriter has finished and no image is
loading. -/
def areChoicesVisible (s : AppState) : Bool :=
  !s.isStoryLoading && s.isTypingComplete && !s.isImageLoading

/-- The continuation installed on the background image promise
(src/unnamed/part_000 line 150): setCurrentTurn maps the previous value,
spreading the turn with the new imageUrl when a turn is present and
keeping null otherwise. -/
def patchImage (url : Option String) : Option GameTurn → Option GameTurn
  | none => none
  | some tn => some { tn with imageUrl := url }

/-- From src/unnamed/part_000 lines 159-164: the catch block of
processTurn.  It logs the error, sets mode to START, shows a blocking
alert and clears isStoryLoading.  console.error and alert are I/O
effects outside the state; no other state field is written. -/
def onProcessTurnError (s : AppState) : AppState :=
  { s with mode := Mode.START, isStoryLoading := false }

/-- Events driving the session controller.  Each corresponds to a
synchronous block of the source running to completion between await
points, which is exact for the single-threaded JavaScript event loop:
startGame is handleStartGame up to its await (lines 79-90); storyBegin is
the head of processTurn before its await (lines 103-106); storyResolved
is the rest of processTurn once generateStorySegment returned d (lines
108-157), d being the response the adapter produced; imageResolved t url
is the then-continuation of a background image promise issued for the
turn tagged t, resolving with url (lines 148-156); textDone is
onTextComplete (lines 196-198); resetEv is resetGame (lines 182-192,
theme resampling omitted). -/
inductive Ev where
  | startGame
  | storyBegin
  | storyResolved (d : StoryEngineResponse)
  | imageResolved (t : Nat) (url : Option String)
  | textDone
  | resetEv

/-- The session controller step function.  In the storyResolved case the
source computes from the currentHp and currentInv arguments of
processTurn; every call site (handleStartGame, handleChoice) passes the
session state hp and inventory, so the model reads them from the state.
The three storyResolved branches mirror lines 123-133 (terminal: mode
GAMEOVER, empty choices, no image request), lines 136-143 (publish the
turn), and lines 146-156 (issue the background image request only when
visualDescription is truthy, i.e. a non-empty string).  A resolving
promise whose tag is not outstanding is a no-op (no such event occurs). -/
def step (s : AppState) : Ev → AppState
  | .startGame =>
      { s with mode := Mode.PLAYING, isStoryLoading := true, hp := 100,
               inventory := [], currentTurn := none,
               isTypingComplete := false, isImageLoading := false }
  | .storyBegin =>
      { s with isStoryLoading := true, isTypingComplete := false,
               isImageLoading := false }
  | .storyResolved d =>
      if d.isGameOver ∨ clampHp (s.hp + d.hpChange) ≤ 0 then
        { s with mode := Mode.GAMEOVER,
                 hp := clampHp (s.hp + d.hpChange),
                 inventory := updateInventory s.inventory d.inventoryRemove d.inventoryAdd,
                 currentTurn := some { tid := s.nextId, text := d.narrative,
                                       imageUrl := none, choices := [] },
                 isStoryLoading := false,
                 nextId := s.nextId + 1 }
      else if d.visualDescription = "" then
        { s with hp := clampHp (s.hp + d.hpChange),
                 inventory := updateInventory s.inventory d.inventoryRemove d.inventoryAdd,
                 currentTurn := some { tid := s.nextId, text := d.narrative,
                                       imageUrl := none, choices := d.choices },
                 isStoryLoading := false,
                 nextId := s.nextId + 1 }
      else
        { s with hp := clampHp (s.hp + d.hpChange),
                 inventory := updateInventory s.inventory d.inventoryRemove d.inventoryAdd,
                 currentTurn := some { tid := s.nextId, text := d.narrative,
                                       imageUrl := none, choices := d.choices },
                 isStoryLoading := false,
                 isImageLoading := true,
                 pendingImages := s.pendingImages ++ [(s.nextId, d.visualDescription)],
                 nextId := s.nextId + 1 }
  | .imageResolved t url =>
      if s.pendingImages.any (fun p => p.1 == t) then
        { s with currentTurn := patchImage url s.currentTurn,
                 isImageLoading := false,
                 pendingImages := s.pendingImages.filter (fun p => !(p.1 == t)) }
      else s
  | .textDone => { s with isTypingComplete := true }
  | .resetEv =>
      { s with mode := Mode.START, hp := 100, inventory := [],
               currentTurn := none, isStoryLoading := false,
               isImageLoading := false, isTypingComplete := false }

/-- Characterisation of the inventoryAdd loop: starting from acc it
appends, in order, exactly the adds not already present, each once. -/
theorem addNew_spec (gs : List String) : ∀ acc : List String, ∃ t,
    addNew acc gs = acc ++ t ∧ List.Sublist t gs ∧ t.Nodup ∧
    (∀ x ∈ t, ¬ x ∈ acc) ∧ (∀ g ∈ gs, g ∈ acc ∨ g ∈ t) := by
  induction gs with
  | nil =>
      intro acc
      exact ⟨[], by simp [addNew], List.nil_sublist _, List.nodup_nil,
             by simp, by simp⟩
  | cons g gs ih =>
      intro acc
      by_cases hg : acc.contains g = true
      · obtain ⟨t, ht, hsub, hnd, hnotin, hcomp⟩ := ih acc
        have hmem : g ∈ acc := by simpa using hg
        refine ⟨t, ?_, hsub.cons g, hnd, hnotin, ?_⟩
        · simp only [addNew]
          rw [if_pos hg]
          exact ht
        · intro a ha
          rcases List.mem_cons.mp ha with rfl | ha
          · exact Or.inl hmem
          · exact hcomp a ha
      · obtain ⟨t, ht, hsub, hnd, hnotin, hcomp⟩ := ih (acc ++ [g])
        have hgacc : ¬ g ∈ acc := by simpa using hg
        have hgt : ¬ g ∈ t := fun hx => (hnotin g hx) (by simp)
        refine ⟨g :: t, ?_, hsub.cons₂ g, List.nodup_cons.mpr ⟨hgt, hnd⟩,
                ?_, ?_⟩
        · calc addNew acc (g :: gs) = addNew (acc ++ [g]) gs := by
                simp only [addNew]
                rw [if_neg hg]
          _ = (acc ++ [g]) ++ t := ht
          _ = acc ++ g :: t := by simp
        · intro x hx
          rcases List.mem_cons.mp hx with rfl | hx
          · exact hgacc
          · exact fun hxa => (hnotin x hx) (List.mem_append_left _ hxa)
        · intro a ha
          rcases List.mem_cons.mp ha with rfl | ha
          · exact Or.inr (List.mem_cons_self _ _)
          · rcases hcomp a ha with hacc | hat
            · rcases List.mem_append.mp hacc with h1 | h1
              · exact Or.inl h1
              · exact Or.inr (List.mem_cons.mpr (Or.inl (by simpa using h1)))
            · exact Or.inr (List.mem_cons.mpr (Or.inr hat))

/-- A JSON value, modelling what JSON.parse can yield from the text
returned by the external call in src/services/geminiService.ts.  Numbers
are modelled as Int (the schema only declares INTEGER fields). -/
inductive JsonVal where
  | jnull
  | jbool (b : Bool)
  | jnum (n : Int)
  | jstr (s : String)
  | jarr (elems : List JsonVal)
  | jobj (fields : List (String × JsonVal))

/-- Lookup of a key in a JSON object field list. -/
def getField (fields : List (String × JsonVal)) (key : String) : Option JsonVal :=
  match fields.find? (fun p => p.1 == key) with
  | some p => some p.2
  | none => none

/-- Extract a string, failing on any other shape. -/
def asStr : JsonVal → Option String
  | .jstr s => some s
  | _ => none

/-- Extract an integer, failing on any other shape. -/
def asInt : JsonVal → Option Int
  | .jnum n => some n
  | _ => none

/-- Extract a boolean, failing on any other shape. -/
def asBool : JsonVal → Option Bool
  | .jbool b => some b
  | _ => none

/-- Extract an array of strings, failing on any other shape. -/
def asStrList : JsonVal → Option (List String)
  | .jarr xs => xs.mapM asStr
  | _ => none

/-- Decode one choice object per the items schema of the choices field in
storySchema (src/services/geminiService.ts lines 37-44): an object with
required string fields id and text. -/
def decodeChoice : JsonVal → Option Choice
  | .jobj fs => do
      let i ← getField fs "id" >>= asStr
      let t ← getField fs "text" >>= asStr
      pure { id := i, text := t }
  | _ => none

/-- Decode a full story response per storySchema
(src/services/geminiService.ts lines 7-47): an object with the seven
required fields narrative, hpChange, inventoryAdd, inventoryRemove,
visualDescription, isGameOver and choices, each of the declared type. -/
def decodeStoryResponse (j : JsonVal) : Option StoryEngineResponse :=
  match j with
  | .jobj fs => do
      let narrative ← getField fs "narrative" >>= asStr
      let hpChange ← getField fs "hpChange" >>= asInt
      let inventoryAdd ← getField fs "inventoryAdd" >>= asStrList
      let inventoryRemove ← getField fs "inventoryRemove" >>= asStrList
      let visualDescription ← getField fs "visualDescription" >>= asStr
      let isGameOver ← getField fs "isGameOver" >>= asBool
      let choicesJson ← getField fs "choices"
      match choicesJson with
      | .jarr cs => do
          let choices ← cs.mapM decodeChoice
          pure { narrative := narrative, hpChange := hpChange,
                 inventoryAdd := inventoryAdd,
                 inventoryRemove := inventoryRemove,
                 visualDescription := visualDescription,
                 isGameOver := isGameOver, choices := choices }
      | _ => none
  | _ => none

/-- A JSON payload conforms to storySchema exactly when it decodes. -/
def schemaValid (j : JsonVal) : Bool := (decodeStoryResponse j).isSome

/-- The literal fallback response returned by the catch branch of
generateStorySegment (src/services/geminiService.ts lines 101-117). -/
def fallbackResponse : StoryEngineResponse :=
  { narrative := "La niebla se espesa y tu mente se nubla... (Error de conexión con la IA, intenta recargar o elegir otra opción).",
    hpChange := 0,
    inventoryAdd := [],
    inventoryRemove := [],
    visualDescription := "foggy mystery void",
    isGameOver := false,
    choices := [ { id := "retry", text := "Intentar de nuevo" },
                 { id := "wait", text := "Esperar un momento" },
                 { id := "run", text := "Huir en pánico" },
                 { id := "scream", text := "Gritar al vacío" } ] }

/-- Encoding of a response value back into JSON, used to state what the
adapter hands its caller in a single type: the TypeScript function
returns either the object parsed from the payload or the fallback object
literal, both as untyped runtime values. -/
def encodeStoryResponse (r : StoryEngineResponse) : JsonVal :=
  .jobj [ ("narrative", .jstr r.narrative),
          ("hpChange", .jnum r.hpChange),
          ("inventoryAdd", .jarr (r.inventoryAdd.map JsonVal.jstr)),
          ("inventoryRemove", .jarr (r.inventoryRemove.map JsonVal.jstr)),
          ("visualDescription", .jstr r.visualDescription),
          ("isGameOver", .jbool r.isGameOver),
          ("choices", .jarr (r.choices.map (fun c =>
              JsonVal.jobj [("id", JsonVal.jstr c.id), ("text", JsonVal.jstr c.text)]))) ]

/-- Outcome of the underlying ai.models.generateContent call inside
generateStorySegment: the call threw; it returned without text; it
returned text that JSON.parse rejects; or it returned text parsing to
the JSON value j. -/
inductive StoryCallOutcome where
  | throwErr
  | okNoText
  | okBadJson
  | okJson (j : JsonVal)

/-- From src/services/geminiService.ts lines 85-118.  The try block
throws when the call throws, when there is no text (the explicit throw
on line 100), or when JSON.parse fails; the catch returns the fallback
literal.  When the text parses, the parsed value is returned through an
unchecked cast (the expression JSON.parse of the text, cast with the
as-operator to StoryEngineResponse, performs no runtime validation). -/
def generateStorySegment : StoryCallOutcome → JsonVal
  | .okJson j => j
  | _ => encodeStoryResponse fallbackResponse

/-- Outcome of the underlying image call in generateSceneImage: it threw
or produced no inline data, or it yielded base64 data. -/
inductive ImageCallOutcome where
  | fails
  | yields (data : String)

/-- From src/services/geminiService.ts lines 121-144: on failure of any
kind the image adapter returns undefined rather than throwing; on
success it returns a data URL built from the inline data. -/
def generateSceneImage : ImageCallOutcome → Option String
  | .fails => none
  | .yields d => some ("data:image/png;base64," ++ d)

/-- C2 (confirmed): when the underlying story-generation call fails (it
throws, or it yields no text), generateStorySegment does not propagate
the error; it returns the fixed fallback response, which has hpChange 0,
empty inventoryAdd and inventoryRemove, isGameOver false, the generic
connection-fog narrative, exactly the 4 fixed recovery choices, and is
well-formed (it conforms to the declared response schema). -/
theorem C2_fallback_on_failure :
    generateStorySegment StoryCallOutcome.throwErr
      = encodeStoryResponse fallbackResponse ∧
    generateStorySegment StoryCallOutcome.okNoText
      = encodeStoryResponse fallbackResponse ∧
    fallbackResponse.hpChange = 0 ∧
    fallbackResponse.inventoryAdd = [] ∧
    fallbackResponse.inventoryRemove = [] ∧
    fallbackResponse.isGameOver = false ∧
    fallbackResponse.choices =
      [ { id := "retry", text := "Intentar de nuevo" },
        { id := "wait", text := "Esperar un momento" },
        { id := "run", text := "Huir en pánico" },
        { id := "scream", text := "Gritar al vacío" } ] ∧
    fallbackResponse.choices.length = 4 ∧
    fallbackResponse.narrative =
      "La niebla se espesa y tu mente se nubla... (Error de conexión con la IA, intenta recargar o elegir otra opción)." ∧
    schemaValid (encodeStoryResponse fallbackResponse) = true :=
  ⟨rfl, rfl, rfl, rfl, rfl, rfl, rfl, rfl, rfl, rfl⟩

/-- C3 counterexample: the empty JSON object parses as JSON yet violates
the response schema (every required field is missing), and
generateStorySegment returns it unchanged to the caller instead of the
deterministic fallback. -/
theorem C3_counterexample :
    schemaValid (JsonVal.jobj []) = false ∧
    generateStorySegment (StoryCallOutcome.okJson (JsonVal.jobj []))
      = JsonVal.jobj [] ∧
    JsonVal.jobj [] ≠ encodeStoryResponse fallbackResponse := by
  refine ⟨rfl, rfl, ?_⟩
  intro h
  simp [encodeStoryResponse] at h

/-- C3 (corrected): generateStorySegment falls back exactly when the
call throws, yields no text, or yields text that fails to parse as
JSON; a payload that parses as JSON is handed to the caller as-is with
no schema validation, so every schema-violating JSON payload reaches
the caller instead of triggering the fallback. -/
theorem C3_passthrough_unvalidated (j : JsonVal) :
    generateStorySegment (StoryCallOutcome.okJson j) = j ∧
    generateStorySegment StoryCallOutcome.okBadJson
      = encodeStoryResponse fallbackResponse ∧
    (schemaValid j = false →
      generateStorySegment (StoryCallOutcome.okJson j)
        ≠ encodeStoryResponse fallbackResponse) := by
  refine ⟨rfl, rfl, fun h hEq => ?_⟩
  have hv : schemaValid (encodeStoryResponse fallbackResponse) = true := rfl
  rw [show generateStorySegment (StoryCallOutcome.okJson j) = j from rfl] at hEq
  rw [hEq, hv] at h
  cases h

/-- A concrete schema-violating payload: narrative has the wrong type. -/
def badPayload : JsonVal := JsonVal.jobj [("narrative", JsonVal.jnum 5)]

/-- C3 witness: the amended theorem applied at the concrete payload
badPayload, whose schema violation is discharged by evaluation. -/
theorem C3_passthrough_witness :
    schemaValid badPayload = false ∧
    generateStorySegment (StoryCallOutcome.okJson badPayload)
      ≠ encodeStoryResponse fallbackResponse :=
  ⟨rfl, (C3_passthrough_unvalidated badPayload).2.2 rfl⟩

/-- Lower bound of the health clamp. -/
theorem clampHp_nonneg (x : Int) : 0 ≤ clampHp x := by
  unfold clampHp
  omega

/-- Upper bound of the health clamp. -/
theorem clampHp_le_hundred (x : Int) : clampHp x ≤ 100 := by
  unfold clampHp
  omega

/-- C5 (confirmed): in every branch of turn processing the new health is
the clamp of the old health plus the response delta, and that clamp
always lies in the interval from 0 to 100, whatever the magnitude or
sign of the delta. -/
theorem C5_health_clamped (s : AppState) (d : StoryEngineResponse) :
    (step s (Ev.storyResolved d)).hp = clampHp (s.hp + d.hpChange) ∧
    0 ≤ clampHp (s.hp + d.hpChange) ∧ clampHp (s.hp + d.hpChange) ≤ 100 := by
  refine ⟨?_, clampHp_nonneg _, clampHp_le_hundred _⟩
  simp only [step]
  split
  · rfl
  · split
    · rfl
    · rfl

/-- C6 (confirmed): the new inventory is the old inventory minus the
removed items (retained items keep their prior order: the first
component is exactly the filter) followed by the added items that were
not already present, appended in the order listed in inventoryAdd (the
appended part is a sublist of inventoryAdd), with no added item
duplicated, every added item present in the result, and removal of an
item absent from the inventory a no-op for that item. -/
theorem C6_inventory_merge (inv rem add : List String) :
    (∃ t, updateInventory inv rem add
        = inv.filter (fun i => !(rem.contains i)) ++ t ∧
      List.Sublist t add ∧ t.Nodup ∧
      (∀ x ∈ t, x ∈ add ∧ ¬ x ∈ inv.filter (fun i => !(rem.contains i))) ∧
      (∀ g ∈ add, g ∈ updateInventory inv rem add)) ∧
    (∀ x, ¬ x ∈ inv →
      updateInventory inv (x :: rem) add = updateInventory inv rem add) := by
  obtain ⟨t, ht, hsub, hnd, hnotin, hcomp⟩ :=
    addNew_spec add (inv.filter (fun i => !(rem.contains i)))
  constructor
  · refine ⟨t, ht, hsub, hnd,
      fun x hx => ⟨hsub.subset hx, hnotin x hx⟩, fun g hg => ?_⟩
    rw [show updateInventory inv rem add
          = addNew (inv.filter (fun i => !(rem.contains i))) add from rfl, ht]
    rcases hcomp g hg with h1 | h1
    · exact List.mem_append_left _ h1
    · exact List.mem_append_right _ h1
  · intro x hx
    unfold updateInventory
    have hf : inv.filter (fun i => !((x :: rem).contains i))
        = inv.filter (fun i => !(rem.contains i)) := by
      apply List.filter_congr
      intro i hi
      have hne : ¬ (i == x) = true := by
        simp only [beq_iff_eq]
        intro h
        exact hx (h ▸ hi)
      simp [List.contains_cons, hne]
      exact fun _ h => hne (by simp [h])
    rw [hf]

/-- C6 witness: the merge theorem applied at concrete lists; the removed
item perla is absent from the inventory and its removal is a no-op, and
the merge itself evaluates as expected. -/
theorem C6_inventory_witness :
    updateInventory ["espada", "mapa"] ["mapa"] ["antorcha", "espada"]
      = ["espada", "antorcha"] ∧
    updateInventory ["espada", "mapa"] ["perla", "mapa"] ["antorcha", "espada"]
      = updateInventory ["espada", "mapa"] ["mapa"] ["antorcha", "espada"] :=
  ⟨by decide,
   (C6_inventory_merge ["espada", "mapa"] ["mapa"] ["antorcha", "espada"]).2
     "perla" (by decide)⟩

/-- C7 counterexample: the claim quantifies over every inventory, but an
inventory that itself contains a duplicate passes through the merge
unchanged when nothing is removed or added, so the result still has a
duplicate entry. -/
theorem C7_counterexample :
    updateInventory ["a", "a"] [] [] = ["a", "a"] ∧
    ¬ (updateInventory ["a", "a"] [] []).Nodup := by
  refine ⟨by decide, ?_⟩
  intro h
  rw [show updateInventory ["a", "a"] [] [] = ["a", "a"] from by decide] at h
  simp at h

/-- C7 (corrected): for every duplicate-free inventory I and every
response, the merged inventory is duplicate-free, regardless of overlap
between I, the added items and the removed items, and of duplicates
inside the added items themselves.  (Every inventory the session ever
holds is duplicate-free: the game starts with an empty inventory and
this very theorem shows each turn preserves the property.) -/
theorem C7_nodup_preserved (inv rem add : List String) (h : inv.Nodup) :
    (updateInventory inv rem add).Nodup := by
  obtain ⟨t, ht, _, hnd, hnotin, _⟩ :=
    addNew_spec add (inv.filter (fun i => !(rem.contains i)))
  rw [show updateInventory inv rem add
        = addNew (inv.filter (fun i => !(rem.contains i))) add from rfl, ht]
  exact (h.filter _).append hnd (fun a ha hat => (hnotin a hat) ha)

/-- C7 witness: the amended theorem applied at a concrete duplicate-free
inventory with overlapping adds, duplicate adds and an overlapping
removal. -/
theorem C7_nodup_witness :
    (["espada", "mapa"] : List String).Nodup ∧
    (updateInventory ["espada", "mapa"] ["mapa"] ["pan", "pan", "espada"]).Nodup :=
  ⟨by decide, C7_nodup_preserved ["espada", "mapa"] ["mapa"]
    ["pan", "pan", "espada"] (by decide)⟩

/-- C4 (confirmed): a processed response is terminal exactly when it is
marked game-over or the clamped new health is 0 (the source test newHp
at most 0 coincides with equality because the clamp is nonnegative); in
the terminal case mode becomes GAMEOVER, the published turn carries the
narrative with no image and empty choices, and no image request is
issued (the outstanding-request list and the image-loading flag are
untouched); in the non-terminal case mode is unchanged and the turn
carries the provided choices. -/
theorem C4_terminal_detection (s : AppState) (d : StoryEngineResponse) :
    ((d.isGameOver = true ∨ clampHp (s.hp + d.hpChange) ≤ 0) ↔
      (d.isGameOver = true ∨ clampHp (s.hp + d.hpChange) = 0)) ∧
    ((d.isGameOver = true ∨ clampHp (s.hp + d.hpChange) = 0) →
      (step s (Ev.storyResolved d)).mode = Mode.GAMEOVER ∧
      (step s (Ev.storyResolved d)).currentTurn
        = some { tid := s.nextId, text := d.narrative,
                 imageUrl := none, choices := [] } ∧
      (step s (Ev.storyResolved d)).pendingImages = s.pendingImages ∧
      (step s (Ev.storyResolved d)).isImageLoading = s.isImageLoading) ∧
    (¬ (d.isGameOver = true ∨ clampHp (s.hp + d.hpChange) = 0) →
      (step s (Ev.storyResolved d)).mode = s.mode ∧
      (step s (Ev.storyResolved d)).currentTurn
        = some { tid := s.nextId, text := d.narrative,
                 imageUrl := none, choices := d.choices }) := by
  have h0 : 0 ≤ clampHp (s.hp + d.hpChange) := clampHp_nonneg _
  have hiff : (d.isGameOver = true ∨ clampHp (s.hp + d.hpChange) ≤ 0) ↔
      (d.isGameOver = true ∨ clampHp (s.hp + d.hpChange) = 0) := by
    constructor
    · rintro (h | h)
      · exact Or.inl h
      · exact Or.inr (le_antisymm h h0)
    · rintro (h | h)
      · exact Or.inl h
      · exact Or.inr (le_of_eq h)
  refine ⟨hiff, ?_, ?_⟩
  · intro hterm
    have ht2 : d.isGameOver = true ∨ clampHp (s.hp + d.hpChange) ≤ 0 :=
      hiff.mpr hterm
    simp only [step]
    rw [if_pos ht2]
    exact ⟨rfl, rfl, rfl, rfl⟩
  · intro hterm
    have ht2 : ¬ (d.isGameOver = true ∨ clampHp (s.hp + d.hpChange) ≤ 0) :=
      fun h => hterm (hiff.mp h)
    simp only [step]
    rw [if_neg ht2]
    by_cases hv : d.visualDescription = ""
    · rw [if_pos hv]
      exact ⟨rfl, rfl⟩
    · rw [if_neg hv]
      exact ⟨rfl, rfl⟩

/-- The four concrete choices used by the demonstration states. -/
def choices4 : List Choice :=
  [ { id := "1", text := "Avanzar" }, { id := "2", text := "Retroceder" },
    { id := "3", text := "Inspeccionar" }, { id := "4", text := "Esperar" } ]

/-- A mid-game state: one live turn (tagged 0) whose background image
request is still outstanding, text reveal finished. -/
def imgWaitState : AppState :=
  { mode := Mode.PLAYING, hp := 90, inventory := ["antorcha"],
    currentTurn := some { tid := 0, text := "Entras en la cueva.",
                          imageUrl := none, choices := choices4 },
    isStoryLoading := false, isImageLoading := true, isTypingComplete := true,
    pendingImages := [(0, "dark cave entrance")], nextId := 1 }

/-- A response not marked game-over whose damage drives clamped health
to 0. -/
def dFinal : StoryEngineResponse :=
  { narrative := "Caes al abismo.", hpChange := -200, inventoryAdd := [],
    inventoryRemove := [], visualDescription := "endless dark pit",
    isGameOver := false, choices := choices4 }

/-- C4 witness: the terminal branch applied at a concrete state and a
concrete response that is terminal only through health reaching 0. -/
theorem C4_terminal_witness :
    (step imgWaitState (Ev.storyResolved dFinal)).mode = Mode.GAMEOVER ∧
    (step imgWaitState (Ev.storyResolved dFinal)).currentTurn
      = some { tid := imgWaitState.nextId, text := dFinal.narrative,
               imageUrl := none, choices := [] } ∧
    (step imgWaitState (Ev.storyResolved dFinal)).pendingImages
      = imgWaitState.pendingImages ∧
    (step imgWaitState (Ev.storyResolved dFinal)).isImageLoading
      = imgWaitState.isImageLoading :=
  (C4_terminal_detection imgWaitState dFinal).2.1 (Or.inr (by decide))

/-- A state in the middle of a turn, used to exhibit what the error
handler leaves behind. -/
def errDemoState : AppState :=
  { mode := Mode.PLAYING, hp := 37, inventory := ["espada oxidada"],
    currentTurn := some { tid := 3, text := "Una trampa se cierra.",
                          imageUrl := none,
                          choices := [ { id := "a", text := "Saltar" } ] },
    isStoryLoading := true, isImageLoading := false, isTypingComplete := false,
    pendingImages := [], nextId := 4 }

/-- C8 counterexample: at a concrete mid-turn state the catch handler
does reset the mode to Start, but the health, the inventory and the
current turn all survive it — the in-progress session state is not
discarded, contradicting the claim that health, inventory and turn are
cleared together. -/
theorem C8_counterexample :
    (onProcessTurnError errDemoState).mode = Mode.START ∧
    (onProcessTurnError errDemoState).hp = 37 ∧
    (onProcessTurnError errDemoState).inventory = ["espada oxidada"] ∧
    (onProcessTurnError errDemoState).currentTurn ≠ none := by
  refine ⟨rfl, rfl, rfl, ?_⟩
  intro h
  simp [onProcessTurnError, errDemoState] at h

/-- C8 (corrected): on an unexpected orchestration failure the session
mode resets to Start and the story-pending flag is cleared (the blocking
alert is shown as an effect), but health, inventory and the current turn
are not discarded: each keeps exactly its pre-failure value, and is only
reset when a new game starts. -/
theorem C8_error_keeps_state (s : AppState) :
    (onProcessTurnError s).mode = Mode.START ∧
    (onProcessTurnError s).isStoryLoading = false ∧
    (onProcessTurnError s).hp = s.hp ∧
    (onProcessTurnError s).inventory = s.inventory ∧
    (onProcessTurnError s).currentTurn = s.currentTurn ∧
    (onProcessTurnError s).isImageLoading = s.isImageLoading :=
  ⟨rfl, rfl, rfl, rfl, rfl, rfl⟩

/-- C9 (confirmed): choice visibility is exactly the conjunction of the
story call having settled, the text reveal being complete and the image
attempt having settled; when an outstanding image promise resolves
(with a failure, url none, or a success), the image-loading flag is
cleared and the other two inputs are untouched, so once the text reveal
is complete and no story is loading the choices become visible — an
image failure never blocks them. -/
theorem C9_choices_visibility (s : AppState) (t : Nat) (url : Option String)
    (h : s.pendingImages.any (fun p => p.1 == t) = true) :
    areChoicesVisible s
      = (!s.isStoryLoading && s.isTypingComplete && !s.isImageLoading) ∧
    (step s (Ev.imageResolved t url)).isImageLoading = false ∧
    (step s (Ev.imageResolved t url)).isStoryLoading = s.isStoryLoading ∧
    (step s (Ev.imageResolved t url)).isTypingComplete = s.isTypingComplete ∧
    (s.isStoryLoading = false → s.isTypingComplete = true →
      areChoicesVisible (step s (Ev.imageResolved t url)) = true) := by
  refine ⟨rfl, ?_, ?_, ?_, ?_⟩
  · simp [step, h]
  · simp [step, h]
  · simp [step, h]
  · intro h1 h2
    simp [step, h, areChoicesVisible, h1, h2]

/-- C9 witness: the visibility theorem applied at the concrete waiting
state, with the image adapter failing (it returns absence); the choices
become visible. -/
theorem C9_visibility_witness :
    areChoicesVisible imgWaitState = false ∧
    areChoicesVisible
      (step imgWaitState
        (Ev.imageResolved 0 (generateSceneImage ImageCallOutcome.fails))) = true :=
  ⟨rfl, (C9_choices_visibility imgWaitState 0
      (generateSceneImage ImageCallOutcome.fails) rfl).2.2.2.2 rfl rfl⟩

/-- C10 (confirmed): if the live turn has been cleared (currentTurn is
null) when a pending image result arrives, the image continuation leaves
currentTurn null — a late image result never creates or resurrects a
turn out of the cleared state. -/
theorem C10_cleared_turn_stays_cleared (s : AppState) (t : Nat)
    (url : Option String) (h : s.currentTurn = none) :
    (step s (Ev.imageResolved t url)).currentTurn = none := by
  by_cases hp2 : s.pendingImages.any (fun p => p.1 == t) = true
  · simp [step, hp2, h, patchImage]
  · simp [step, hp2, h]

/-- A cleared session that still has an outstanding image promise. -/
def clearedDemoState : AppState :=
  { mode := Mode.START, hp := 100, inventory := [], currentTurn := none,
    isStoryLoading := false, isImageLoading := true, isTypingComplete := false,
    pendingImages := [(7, "ghost town")], nextId := 8 }

/-- C10 witness: the theorem applied at the concrete cleared state with
its pending promise resolving late. -/
theorem C10_cleared_witness :
    (step clearedDemoState (Ev.imageResolved 7 (some "tardia"))).currentTurn
      = none :=
  C10_cleared_turn_stays_cleared clearedDemoState 7 (some "tardia") rfl

/-- A first-turn response that requests a scene image. -/
def dCave : StoryEngineResponse :=
  { narrative := "Entras en la cueva.", hpChange := -10,
    inventoryAdd := ["antorcha"], inventoryRemove := [],
    visualDescription := "dark cave entrance", isGameOver := false,
    choices := choices4 }

/-- A second-turn response with no visual description, so it issues no
image request of its own. -/
def dHall : StoryEngineResponse :=
  { narrative := "Llegas a una sala amplia.", hpChange := 0,
    inventoryAdd := [], inventoryRemove := [], visualDescription := "",
    isGameOver := false, choices := choices4 }

/-- The initial application state on mount. -/
def initState : AppState :=
  { mode := Mode.START, hp := 100, inventory := [], currentTurn := none,
    isStoryLoading := false, isImageLoading := false,
    isTypingComplete := false, pendingImages := [], nextId := 0 }

/-- An execution in which the game starts, the first turn (tagged 0)
resolves and issues a background image request, and a second turn
(tagged 1) resolves and replaces the live turn — all before the image
for turn 0 arrives. -/
def staleTraceState : AppState :=
  List.foldl step initState
    [Ev.startGame, Ev.storyBegin, Ev.storyResolved dCave,
     Ev.storyBegin, Ev.storyResolved dHall]

/-- C1 counterexample: in the execution staleTraceState the image
request outstanding is the one issued for the superseded turn tagged 0,
the live turn is the distinct turn tagged 1 with no image, and yet when
that late result arrives it is applied: it mutates the live turn tagged
1 — so the result is applied although the turn it was requested for is
no longer the live turn, refuting the application-only-by-turn-identity
guard the claim states. -/
theorem C1_counterexample :
    staleTraceState.pendingImages = [(0, "dark cave entrance")] ∧
    staleTraceState.currentTurn
      = some { tid := 1, text := "Llegas a una sala amplia.",
               imageUrl := none, choices := choices4 } ∧
    (step staleTraceState (Ev.imageResolved 0 (some "img-cueva"))).currentTurn
      = some { tid := 1, text := "Llegas a una sala amplia.",
               imageUrl := some "img-cueva", choices := choices4 } :=
  ⟨rfl, rfl, rfl⟩

/-- C1 (corrected): a late image result never resurrects a cleared
state — after Reset the live turn is null and stays null when the
result arrives — but the continuation checks only that some turn is
live, not turn identity: whenever any turn is live when an outstanding
result arrives, that live turn receives the image, even if it is not
the turn the request was issued for; a result with no outstanding
request changes nothing. -/
theorem C1_stale_image_behavior (s : AppState) (t : Nat)
    (url : Option String) :
    ((step (step s Ev.resetEv) (Ev.imageResolved t url)).currentTurn
        = none) ∧
    (∀ tn, s.currentTurn = some tn →
      s.pendingImages.any (fun p => p.1 == t) = true →
      (step s (Ev.imageResolved t url)).currentTurn
        = some { tn with imageUrl := url }) ∧
    (s.pendingImages.any (fun p => p.1 == t) = false →
      step s (Ev.imageResolved t url) = s) := by
  refine ⟨?_, ?_, ?_⟩
  · simp only [step, patchImage]
    split
    · rfl
    · rfl
  · intro tn htn hpend
    simp [step, hpend, htn, patchImage]
  · intro hpend
    simp [step, hpend]

/-- C1 witness: the amended theorem applied at the concrete mid-game
state imgWaitState, whose live turn is the very turn tagged 0 the
request was issued for: after a reset the late result leaves the
cleared turn null, and without the reset the live turn receives the
image. -/
theorem C1_stale_image_witness :
    (step (step imgWaitState Ev.resetEv)
        (Ev.imageResolved 0 (some "img-a"))).currentTurn = none ∧
    (step imgWaitState (Ev.imageResolved 0 (some "img-a"))).currentTurn
      = some { tid := 0, text := "Entras en la cueva.",
               imageUrl := some "img-a", choices := choices4 } :=
  ⟨(C1_stale_image_behavior imgWaitState 0 (some "img-a")).1,
   (C1_stale_image_behavior imgWaitState 0 (some "img-a")).2.1 _ rfl rfl⟩
